import Mathlib

/-!
Shallow embedding of the API Integration Proxy (src/main.py): the provider
enum, the two mocked provider handlers, the credential validator, and the
dispatch endpoint `integrate_provider`, followed by theorems settling the
spec claims.

Python dictionaries are embedded as association lists (first binding wins,
as for a Python dict whose keys are unique); a raised exception escaping the
endpoint's try-block is embedded as `Except.error`; the `except Exception`
catch-all is the outer match in `integrate_provider`.
-/

set_option autoImplicit false
set_option linter.unusedVariables false

namespace APIProxy

/-- The `Provider` enum of main.py (closed set, validated by FastAPI before
the endpoint body runs). -/
inductive Provider where
  | SALESFORCE
  | UPS
deriving DecidableEq, BEq, Repr

/-- The `.value` of a `Provider` member (its string payload). -/
def Provider.value : Provider → String
  | Provider.SALESFORCE => "salesforce"
  | Provider.UPS => "ups"

/-- The `AuthType` enum of main.py. -/
inductive AuthType where
  | PASSWORD
  | API_KEY
  | OAUTH
deriving DecidableEq, BEq, Repr

/-- JSON-ish values appearing in parameter bags and handler results.
The nested shapes the handlers actually build are a list of strings
(`available_actions`) and a string-to-string map (`shipment_details`). -/
inductive Value where
  | str : String → Value
  | num : Rat → Value
  | strList : List String → Value
  | strObj : List (String × String) → Value
deriving DecidableEq, Repr

/-- `Dict[str, Any]` parameter bag. -/
abbrev ParameterBag := List (String × Value)

/-- `Dict[str, Any]` handler result. -/
abbrev ResultMap := List (String × Value)

/-- `Dict[str, str]` credential bag. -/
abbrev CredentialBag := List (String × String)

/-- `m.get(key)` on a value dict: `some` of the first binding, else `none`. -/
def lookupKey (m : List (String × Value)) (key : String) : Option Value :=
  (m.find? (fun entry => entry.1 == key)).map (fun entry => entry.2)

/-- `key in m` on a value dict. -/
def hasKey (m : List (String × Value)) (key : String) : Bool :=
  m.any (fun entry => entry.1 == key)

/-- `m.get(key, dflt)` on a value dict: the stored value when the key is
present (whatever it is), the default otherwise. -/
def dictGet (m : ParameterBag) (key : String) (dflt : Value) : Value :=
  match lookupKey m key with
  | some v => v
  | none => dflt

/-- `credentials.get(key)` on a string dict. -/
def sget (m : CredentialBag) (key : String) : Option String :=
  (m.find? (fun entry => entry.1 == key)).map (fun entry => entry.2)

/-- Python truthiness of `credentials.get(key)`: `None` and the empty string
are falsy, every other string is truthy. -/
def truthyStr : Option String → Bool
  | some s => !(s == "")
  | none => false

/-- The pydantic `IntegrationRequest` model. `auth_type` is declared
`Optional[AuthType] = AuthType.API_KEY`, so an explicit JSON `null` yields
`none`, distinct from the `some AuthType.API_KEY` default. -/
structure IntegrationRequest where
  action : String
  parameters : ParameterBag
  auth_type : Option AuthType
  auth_credentials : Option CredentialBag
deriving DecidableEq, Repr

/-- The pydantic `IntegrationResponse` model (the IntegrationEnvelope). -/
structure IntegrationResponse where
  status : String
  data : ResultMap
  provider : String
  action : String
deriving DecidableEq, Repr

/-- A raised `fastapi.HTTPException` (which is a subclass of `Exception`). -/
structure HTTPException where
  status_code : Nat
  detail : String
deriving DecidableEq, Repr

/-- `str(e)` for a starlette/fastapi `HTTPException`. -/
def excStr (e : HTTPException) : String :=
  toString e.status_code ++ ": " ++ e.detail

namespace SalesforceHandler

/-- `SalesforceHandler.handle_request` (main.py lines 40-72), minus the
simulated `asyncio.sleep` delay; `auth_credentials` is accepted and ignored
exactly as in the source. -/
def handle_request (action : String) (parameters : ParameterBag)
    (auth_credentials : Option CredentialBag) : ResultMap :=
  if action = "create_lead" then
    [("id", Value.str "00Q1234567890ABC"),
     ("email", dictGet parameters "email" (Value.str "test@example.com")),
     ("company", dictGet parameters "company" (Value.str "Test Company")),
     ("status", Value.str "New"),
     ("created_date", Value.str "2024-01-15T10:30:00Z")]
  else if action = "update_contact" then
    [("id", dictGet parameters "contact_id" (Value.str "0031234567890ABC")),
     ("email", dictGet parameters "email" (Value.str "updated@example.com")),
     ("phone", dictGet parameters "phone" (Value.str "+1234567890")),
     ("last_modified", Value.str "2024-01-15T10:30:00Z")]
  else if action = "get_account" then
    [("id", dictGet parameters "account_id" (Value.str "0011234567890ABC")),
     ("name", Value.str "Acme Corporation"),
     ("industry", Value.str "Technology"),
     ("annual_revenue", Value.num 1000000),
     ("employees", Value.num 500)]
  else
    [("error", Value.str ("Unknown Salesforce action: " ++ action)),
     ("available_actions", Value.strList ["create_lead", "update_contact", "get_account"])]

end SalesforceHandler

namespace UPSHandler

/-- `UPSHandler.handle_request` (main.py lines 78-117), minus the simulated
`asyncio.sleep` delay; `auth_credentials` is accepted and ignored exactly as
in the source. -/
def handle_request (action : String) (parameters : ParameterBag)
    (auth_credentials : Option CredentialBag) : ResultMap :=
  if action = "track_package" then
    [("tracking_number", dictGet parameters "tracking_number" (Value.str "1Z999AA1234567890")),
     ("status", Value.str "In Transit"),
     ("location", Value.str "Memphis, TN"),
     ("estimated_delivery", Value.str "2024-01-18T14:00:00Z"),
     ("shipment_details", Value.strObj
       [("weight", "2.5 lbs"), ("service", "Ground"),
        ("origin", "New York, NY"), ("destination", "Los Angeles, CA")])]
  else if action = "calculate_shipping" then
    [("origin_zip", dictGet parameters "origin_zip" (Value.str "10001")),
     ("destination_zip", dictGet parameters "destination_zip" (Value.str "90210")),
     ("weight", dictGet parameters "weight" (Value.str "5.0")),
     ("service", dictGet parameters "service" (Value.str "Ground")),
     ("rate", Value.num (1599 / 100)),
     ("delivery_days", Value.num 5)]
  else if action = "create_shipment" then
    [("shipment_id", Value.str "UPS123456789"),
     ("tracking_number", Value.str "1Z999AA1234567890"),
     ("label_url", Value.str "https://api.ups.com/labels/123456789.pdf"),
     ("rate", Value.num (2550 / 100)),
     ("estimated_delivery", Value.str "2024-01-18T14:00:00Z")]
  else
    [("error", Value.str ("Unknown UPS action: " ++ action)),
     ("available_actions", Value.strList ["track_package", "calculate_shipping", "create_shipment"])]

end UPSHandler

/-- The `PROVIDER_HANDLERS` registry (main.py lines 120-123), as an
association list from provider to its handler function. -/
def PROVIDER_HANDLERS : List (Provider × (String → ParameterBag → Option CredentialBag → ResultMap)) :=
  [(Provider.SALESFORCE, SalesforceHandler.handle_request),
   (Provider.UPS, UPSHandler.handle_request)]

/-- `_validate_auth_credentials` (main.py lines 210-221). The `auth_type`
argument is `Option` because the request field is `Optional`; an explicit
`null` matches none of the `==` comparisons and falls to `return False`. -/
def validate_auth_credentials (auth_type : Option AuthType) (credentials : CredentialBag) : Bool :=
  if auth_type = some AuthType.PASSWORD then
    truthyStr (sget credentials "username") && truthyStr (sget credentials "password")
  else if auth_type = some AuthType.API_KEY then
    (sget credentials "api_key").isSome
  else if auth_type = some AuthType.OAUTH then
    (sget credentials "access_token").isSome
  else
    false

/-- The credential gate of `integrate_provider` (main.py lines 164-170):
`if request.auth_credentials:` is Python truthiness, so `None` and the empty
dict both skip validation; a failing validation raises `HTTPException(401)`. -/
def authCheck (request : IntegrationRequest) : Except HTTPException Unit :=
  match request.auth_credentials with
  | none => Except.ok ()
  | some creds =>
    if creds.isEmpty then
      Except.ok ()
    else if validate_auth_credentials request.auth_type creds then
      Except.ok ()
    else
      Except.error ⟨401, "Invalid authentication credentials"⟩

/-- Envelope construction (main.py lines 180-194): status "error" when the
handler result contains an `error` key, else "success"; data verbatim. -/
def makeEnvelope (provider : Provider) (request : IntegrationRequest) (result : ResultMap) :
    IntegrationResponse :=
  if hasKey result "error" then
    ⟨"error", result, provider.value, request.action⟩
  else
    ⟨"success", result, provider.value, request.action⟩

/-- The body of the `try` block of `integrate_provider` (main.py lines
153-194). `Except.error` is an exception escaping the block: the
unsupported-provider `HTTPException(400)` (unreachable, since FastAPI has
already validated the closed enum) and the authentication-failure
`HTTPException(401)`. -/
def integrateProviderBody (provider : Provider) (request : IntegrationRequest) :
    Except HTTPException IntegrationResponse :=
  match PROVIDER_HANDLERS.find? (fun q => q.1 == provider) with
  | none =>
    Except.error ⟨400, "Unsupported provider: " ++ provider.value⟩
  | some q =>
    match authCheck request with
    | Except.error e => Except.error e
    | Except.ok _ =>
      Except.ok (makeEnvelope provider request
        (q.2 request.action request.parameters request.auth_credentials))

/-- `integrate_provider` (main.py lines 141-208). The outer match is the
`except Exception as e:` catch-all: ANY exception raised in the try block —
including the `HTTPException`s raised inside it, since `HTTPException`
subclasses `Exception` — is converted into a generic internal-error
envelope. -/
def integrate_provider (provider : Provider) (request : IntegrationRequest) :
    IntegrationResponse :=
  match integrateProviderBody provider request with
  | Except.ok resp => resp
  | Except.error e =>
    ⟨"error",
     [("error", Value.str "Internal server error"),
      ("message", Value.str (excStr e)),
      ("provider", Value.str provider.value),
      ("action", Value.str request.action)],
     provider.value, request.action⟩

/-- True when an exception was raised (and then caught) during dispatch. -/
def dispatchFault (provider : Provider) (request : IntegrationRequest) : Bool :=
  match integrateProviderBody provider request with
  | Except.error _ => true
  | Except.ok _ => false

/-- The handler the registry resolves for each provider. -/
def handlerOf : Provider → String → ParameterBag → Option CredentialBag → ResultMap
  | Provider.SALESFORCE => SalesforceHandler.handle_request
  | Provider.UPS => UPSHandler.handle_request

/-- Each provider's known action list, in declared order (the literals of
main.py lines 71 and 116). -/
def knownActions : Provider → List String
  | Provider.SALESFORCE => ["create_lead", "update_contact", "get_account"]
  | Provider.UPS => ["track_package", "calculate_shipping", "create_shipment"]

/-- The human label each handler interpolates into its unknown-action
message. -/
def providerLabel : Provider → String
  | Provider.SALESFORCE => "Salesforce"
  | Provider.UPS => "UPS"

/-- Registry lookup is total over the closed enum and resolves the expected
handler. -/
theorem find_provider_handlers (p : Provider) :
    PROVIDER_HANDLERS.find? (fun q => q.1 == p) = some (p, handlerOf p) := by
  cases p <;> rfl

/-- The try-block body, rewritten through the always-successful registry
lookup. -/
theorem integrateProviderBody_eq (p : Provider) (r : IntegrationRequest) :
    integrateProviderBody p r =
      match authCheck r with
      | Except.error e => Except.error e
      | Except.ok _ =>
        Except.ok (makeEnvelope p r (handlerOf p r.action r.parameters r.auth_credentials)) := by
  unfold integrateProviderBody
  rw [find_provider_handlers]

/-- The request of the repository's own test `test_invalid_auth_credentials`
(src/test_main.py lines 162-175): password auth with a username but no
password key. -/
def c1Request : IntegrationRequest :=
  ⟨"create_lead", [("email", Value.str "test@example.com")],
   some AuthType.PASSWORD, some [("username", "test_user")]⟩

/-- C1: credentials that fail validation do make the dispatcher raise the
`HTTPException(401)` authentication rejection, but the endpoint's
`except Exception` catch-all swallows that very exception and embeds the
failure in a normally-returned IntegrationEnvelope (HTTP 200) with a generic
internal-error payload — the rejection never reaches the transport layer,
contradicting the claim (and the repository's own test, which asserts 401). -/
theorem auth_rejection_swallowed_by_catchall :
    integrateProviderBody Provider.SALESFORCE c1Request =
      Except.error ⟨401, "Invalid authentication credentials"⟩ ∧
    integrate_provider Provider.SALESFORCE c1Request =
      ⟨"error",
       [("error", Value.str "Internal server error"),
        ("message", Value.str "401: Invalid authentication credentials"),
        ("provider", Value.str "salesforce"),
        ("action", Value.str "create_lead")],
       "salesforce", "create_lead"⟩ := by
  constructor <;> rfl

/-- C2: dispatch is a total function — every provider/request pair yields
exactly one IntegrationEnvelope (the catch-all converts every raised
exception into one), and the envelope's `provider` and `action` fields echo
the request on the success, handler-error and internal-fault paths alike. -/
theorem dispatch_always_envelopes_and_echoes (p : Provider) (r : IntegrationRequest) :
    (integrate_provider p r).provider = p.value ∧
    (integrate_provider p r).action = r.action := by
  unfold integrate_provider
  rw [integrateProviderBody_eq]
  cases authCheck r with
  | error e => exact ⟨rfl, rfl⟩
  | ok u =>
    simp only [makeEnvelope]
    split <;> exact ⟨rfl, rfl⟩

/-- C3: for either provider, any action outside its known set yields exactly
the error ResultMap with the `Unknown <provider> action: <action>` message
and the provider's three known actions in declared order, and never raises
(the handler is total). -/
theorem unknown_action_error_result (p : Provider) (action : String)
    (params : ParameterBag) (creds : Option CredentialBag)
    (h : action ∉ knownActions p) :
    handlerOf p action params creds =
      [("error", Value.str ("Unknown " ++ providerLabel p ++ " action: " ++ action)),
       ("available_actions", Value.strList (knownActions p))] := by
  cases p <;>
    simp only [knownActions, List.mem_cons, List.not_mem_nil, or_false, not_or] at h <;>
    obtain ⟨h1, h2, h3⟩ := h <;>
    simp [handlerOf, SalesforceHandler.handle_request, UPSHandler.handle_request,
      knownActions, providerLabel, h1, h2, h3]

/-- Witness for C3 at the concrete action "bogus_action". -/
theorem unknown_action_error_result_witness :
    "bogus_action" ∉ knownActions Provider.SALESFORCE ∧
    handlerOf Provider.SALESFORCE "bogus_action" [] none =
      [("error", Value.str "Unknown Salesforce action: bogus_action"),
       ("available_actions", Value.strList ["create_lead", "update_contact", "get_account"])] :=
  ⟨by decide, unknown_action_error_result Provider.SALESFORCE "bogus_action" [] none (by decide)⟩

/-- C4: for either provider, every action in its known set yields a
ResultMap without an `error` key, whatever the parameter bag. -/
theorem known_actions_never_error (p : Provider) (action : String)
    (params : ParameterBag) (creds : Option CredentialBag)
    (h : action ∈ knownActions p) :
    hasKey (handlerOf p action params creds) "error" = false := by
  cases p <;>
    simp only [knownActions, List.mem_cons, List.not_mem_nil, or_false] at h <;>
    rcases h with h | h | h <;> subst h <;> rfl

/-- Witness for C4 at the concrete action "create_lead". -/
theorem known_actions_never_error_witness :
    "create_lead" ∈ knownActions Provider.SALESFORCE ∧
    hasKey (handlerOf Provider.SALESFORCE "create_lead" [] none) "error" = false :=
  ⟨by decide, known_actions_never_error Provider.SALESFORCE "create_lead" [] none (by decide)⟩

/-- C5: the credential validator, characterized against the spec rules:
password requires `username` and `password` present and non-empty; api_key
requires the `api_key` key present (any value, empty string included); oauth
requires the `access_token` key present; every other auth-type value (here,
the explicit `null`) is rejected. -/
theorem validate_auth_credentials_spec (creds : CredentialBag) :
    (validate_auth_credentials (some AuthType.PASSWORD) creds = true ↔
      (∃ u, sget creds "username" = some u ∧ u ≠ "") ∧
      (∃ w, sget creds "password" = some w ∧ w ≠ "")) ∧
    (validate_auth_credentials (some AuthType.API_KEY) creds = true ↔
      ∃ v, sget creds "api_key" = some v) ∧
    (validate_auth_credentials (some AuthType.OAUTH) creds = true ↔
      ∃ v, sget creds "access_token" = some v) ∧
    validate_auth_credentials none creds = false := by
  refine ⟨?_, ?_, ?_, rfl⟩
  · simp only [validate_auth_credentials, if_pos rfl]
    cases h1 : sget creds "username" <;> cases h2 : sget creds "password" <;>
      simp [truthyStr, h1, h2]
  · simp only [validate_auth_credentials]
    norm_num
    cases h : sget creds "api_key" <;> simp [h]
  · simp only [validate_auth_credentials]
    norm_num
    cases h : sget creds "access_token" <;> simp [h]

/-- C6: the envelope's status is "error" exactly when the handler's result
has an `error` key or an exception was raised (and caught) during dispatch;
with neither, the status is "success" and the data is the handler's result
verbatim. -/
theorem envelope_status_error_iff (p : Provider) (r : IntegrationRequest) :
    ((integrate_provider p r).status = "error" ↔
      (hasKey (handlerOf p r.action r.parameters r.auth_credentials) "error" = true ∨
       dispatchFault p r = true)) ∧
    (hasKey (handlerOf p r.action r.parameters r.auth_credentials) "error" = false →
      dispatchFault p r = false →
      (integrate_provider p r).status = "success" ∧
      (integrate_provider p r).data = handlerOf p r.action r.parameters r.auth_credentials) := by
  unfold integrate_provider dispatchFault
  rw [integrateProviderBody_eq]
  cases authCheck r with
  | error e => simp
  | ok u =>
    simp only [makeEnvelope]
    cases hk : hasKey (handlerOf p r.action r.parameters r.auth_credentials) "error" <;>
      simp [hk]

/-- A request on the success path, used to witness C6. -/
def c6Request : IntegrationRequest := ⟨"get_account", [], some AuthType.API_KEY, none⟩

/-- Witness for C6: a concrete dispatch with no error key and no fault has
status "success" and carries the handler result verbatim. -/
theorem envelope_status_error_iff_witness :
    (integrate_provider Provider.SALESFORCE c6Request).status = "success" ∧
    (integrate_provider Provider.SALESFORCE c6Request).data =
      handlerOf Provider.SALESFORCE "get_account" [] none :=
  (envelope_status_error_iff Provider.SALESFORCE c6Request).2 rfl rfl

/-- The concrete scenario request of C7. -/
def c7Request : IntegrationRequest :=
  ⟨"create_lead", [("email", Value.str "a@b.com"), ("company", Value.str "Acme")],
   some AuthType.API_KEY, none⟩

/-- C7: `create_lead` draws `email` and `company` from the parameter bag
when present and falls back to its canned defaults otherwise, always sets
status "New", and never reports an error; the concrete scenario dispatch
yields a "success" envelope echoing the supplied values. -/
theorem create_lead_defaults_and_scenario (params : ParameterBag) (creds : Option CredentialBag) :
    lookupKey (SalesforceHandler.handle_request "create_lead" params creds) "email" =
      some (dictGet params "email" (Value.str "test@example.com")) ∧
    lookupKey (SalesforceHandler.handle_request "create_lead" params creds) "company" =
      some (dictGet params "company" (Value.str "Test Company")) ∧
    lookupKey (SalesforceHandler.handle_request "create_lead" params creds) "status" =
      some (Value.str "New") ∧
    hasKey (SalesforceHandler.handle_request "create_lead" params creds) "error" = false ∧
    (integrate_provider Provider.SALESFORCE c7Request).status = "success" ∧
    lookupKey (integrate_provider Provider.SALESFORCE c7Request).data "email" =
      some (Value.str "a@b.com") ∧
    lookupKey (integrate_provider Provider.SALESFORCE c7Request).data "company" =
      some (Value.str "Acme") ∧
    lookupKey (integrate_provider Provider.SALESFORCE c7Request).data "status" =
      some (Value.str "New") :=
  ⟨rfl, rfl, rfl, rfl, rfl, rfl, rfl, rfl⟩

/-- Two successive calls of the resolved handler on the same inputs. -/
def callTwice (p : Provider) (action : String) (params : ParameterBag)
    (creds : Option CredentialBag) : ResultMap × ResultMap :=
  (handlerOf p action params creds, handlerOf p action params creds)

/-- C8: the handlers are staticmethods that read no mutable state, so the
faithful embedding is a pure function and two calls with identical inputs
return structurally identical ResultMaps. -/
theorem handle_request_idempotent (p : Provider) (action : String)
    (params : ParameterBag) (creds : Option CredentialBag) :
    (callTwice p action params creds).1 = (callTwice p action params creds).2 := rfl

/-- C9: when credentials are absent or an empty mapping, dispatch never
raises the authentication rejection (the validator is skipped — the
conclusion holds for every auth type, including the explicit `null` that the
validator would reject) and the envelope is built directly from the
handler's result. -/
theorem absent_or_empty_credentials_skip_validation (p : Provider) (action : String)
    (params : ParameterBag) (authT : Option AuthType) (creds : Option CredentialBag)
    (h : creds = none ∨ creds = some []) :
    dispatchFault p ⟨action, params, authT, creds⟩ = false ∧
    integrate_provider p ⟨action, params, authT, creds⟩ =
      makeEnvelope p ⟨action, params, authT, creds⟩ (handlerOf p action params creds) := by
  have hauth : authCheck ⟨action, params, authT, creds⟩ = Except.ok () := by
    rcases h with h | h <;> subst h <;> rfl
  constructor
  · unfold dispatchFault
    rw [integrateProviderBody_eq, hauth]
  · unfold integrate_provider
    rw [integrateProviderBody_eq, hauth]

/-- Witness for C9: empty credential bag with an explicit `null` auth type
still reaches the handler. -/
theorem absent_or_empty_credentials_skip_validation_witness :
    ((some ([] : CredentialBag) = none ∨ some ([] : CredentialBag) = some [])) ∧
    dispatchFault Provider.UPS ⟨"track_package", [], none, some []⟩ = false ∧
    integrate_provider Provider.UPS ⟨"track_package", [], none, some []⟩ =
      makeEnvelope Provider.UPS ⟨"track_package", [], none, some []⟩
        (handlerOf Provider.UPS "track_package" [] (some [])) :=
  ⟨Or.inr rfl,
   absent_or_empty_credentials_skip_validation Provider.UPS "track_package" [] none
     (some []) (Or.inr rfl)⟩

/-- C10: an explicit `null` auth type together with a non-empty credential
bag falls through every comparison of the validator to its defensive
`return False`, so the dispatcher raises the authentication-failure
rejection no matter which credential keys are present. -/
theorem null_auth_type_rejected (p : Provider) (action : String) (params : ParameterBag)
    (creds : CredentialBag) (h : creds ≠ []) :
    validate_auth_credentials none creds = false ∧
    integrateProviderBody p ⟨action, params, none, some creds⟩ =
      Except.error ⟨401, "Invalid authentication credentials"⟩ := by
  have hv : validate_auth_credentials none creds = false := rfl
  refine ⟨hv, ?_⟩
  rw [integrateProviderBody_eq]
  have hne : creds.isEmpty = false := by
    cases creds with
    | nil => exact absurd rfl h
    | cons a l => rfl
  simp [authCheck, hne, hv]

/-- Witness for C10: even a bag carrying username, password, api_key and
access_token at once is rejected under an explicit `null` auth type. -/
theorem null_auth_type_rejected_witness :
    (([("username", "u"), ("password", "p"), ("api_key", "k"), ("access_token", "t")] :
        CredentialBag) ≠ []) ∧
    validate_auth_credentials none
        [("username", "u"), ("password", "p"), ("api_key", "k"), ("access_token", "t")] = false ∧
    integrateProviderBody Provider.SALESFORCE
        ⟨"create_lead", [], none,
         some [("username", "u"), ("password", "p"), ("api_key", "k"), ("access_token", "t")]⟩ =
      Except.error ⟨401, "Invalid authentication credentials"⟩ :=
  ⟨by decide,
   null_auth_type_rejected Provider.SALESFORCE "create_lead" []
     [("username", "u"), ("password", "p"), ("api_key", "k"), ("access_token", "t")]
     (by decide)⟩

end APIProxy
